import Mathlib

/-!
Verification development for the resilient Gemini client of the FreeCAD addon:
a shallow embedding of `src/AIEngineer/gemini.py` (class `GoogleGenerativeAi`)
and `src/jjson.py`, with theorems about the retry executor, the chat-session
state machine, multimodal content assembly and history persistence.
-/

namespace FCGemini

/-! Retry-policy constants, gemini.py lines 50-56. -/

def NETWORK_ERROR_MAX_ATTEMPTS : Nat := 5
def SERVICE_UNAVAILABLE_MAX_ATTEMPTS : Nat := 3
def INVALID_INPUT_MAX_ATTEMPTS : Nat := 3
def INITIAL_RETRY_SLEEP_SECONDS : Nat := 2
def NETWORK_RETRY_SLEEP_SECONDS : Nat := 120
def SERVICE_RETRY_SLEEP_SECONDS_BASE : Nat := 10
def QUOTA_EXHAUSTED_SLEEP_SECONDS : Nat := 14400

/-- One history entry, the `{'role': ..., 'parts': [...]}` dict used throughout
gemini.py (`chat_history` items and the lists handed to `model.start_chat`). -/
structure Msg where
  role : String
  parts : List String
deriving DecidableEq, Repr

/-- The message `{'role': 'user', 'parts': [system_instruction]}` that
`_start_chat` (line 175) inserts at the front of a chat history. -/
def siMsg (s : String) : Msg := ⟨"user", [s]⟩

/-! Multimodal content assembly: the `parts_to_send` / `content_to_send`
construction duplicated verbatim in `chat` (lines 317-327), `ask`
(lines 423-433) and `ask_async` (lines 535-545).  The Python `context`
parameter is `Optional[Union[str, List[str]]]`. -/

/-- Python truthiness of a non-None `context` argument (`if context:`):
an empty string and an empty list are falsy. -/
def contextTruthy : String ⊕ List String → Bool
  | .inl s => !(s = "")
  | .inr l => !l.isEmpty

/-- The `context_str` computed at gemini.py lines 320-323: a list is joined
with newlines, a plain string is used as is. -/
def contextStr : String ⊕ List String → String
  | .inl s => s
  | .inr l => String.intercalate "\n" l

/-- The ordered list of text parts sent to the provider: the labelled RAG
context first (only when `context` is truthy), then the prompt. -/
def buildContent (context : Option (String ⊕ List String)) (q : String) : List String :=
  (match context with
   | some c => if contextTruthy c then ["Контекст:\n" ++ contextStr c ++ "\n\n"] else []
   | none => []) ++ [q]

/-! Chat-session history materialization. -/

/-- gemini.py `_start_chat` (lines 152-178): the history list handed to
`self.model.start_chat`.  When a (truthy) system instruction is configured it
is inserted at index 0 unless the history is non-empty and its first message
is a user message already containing the instruction.  The insert is done
with `history_to_load.insert(0, ...)`, i.e. in place on the caller's list. -/
def startChatHistory (si : Option String) (initialHistory : List Msg) : List Msg :=
  match si with
  | none => initialHistory
  | some s =>
    if s = "" then initialHistory
    else
      match initialHistory with
      | [] => [siMsg s]
      | m :: t => if m.role = "user" ∧ s ∉ m.parts then siMsg s :: m :: t else m :: t

/-- gemini.py `_load_chat_history` (lines 252-257): the loaded record is
stripped of its first message when the system instruction is truthy and that
first message is a user message whose parts contain the instruction. -/
def stripLeadingSi (si : Option String) (h : List Msg) : List Msg :=
  match si, h with
  | some s, m :: t => if s ≠ "" ∧ m.role = "user" ∧ s ∈ m.parts then t else m :: t
  | _, h => h

/-- The in-memory `chat_history` (and, by aliasing, the provider-handle
history) produced by `_load_chat_history` on a successfully decoded record
`h`: the stripped list is assigned to `self.chat_history` (line 261) and then
mutated in place by `_start_chat`'s insert (line 263 passes the same list
object as `initial_history`). -/
def loadMaterialize (si : Option String) (h : List Msg) : List Msg :=
  startChatHistory si (stripLeadingSi si h)

/-- gemini.py `start_new_chat_session` (lines 181-197): the provider-handle
history of the new session, built by `_start_chat` from the caller-supplied
`initial_history` (defaulting to the empty list) and the instance's system
instruction. -/
def startNewChatSessionHandle (si : Option String) (initialHistory : Option (List Msg)) :
    List Msg :=
  startChatHistory si (initialHistory.getD [])

/-- Number of messages of a history whose parts contain the given system
instruction string (Python `si in msg['parts']` membership). -/
def siOccCount (s : String) (h : List Msg) : Nat :=
  h.countP (fun m => decide (s ∈ m.parts))

/-- Boolean test that two transcripts are identical up to the presence of the
single canonical leading system-instruction entry `siMsg s`. -/
def modSiB (s : String) (a b : List Msg) : Bool :=
  decide (a = b ∨ a = siMsg s :: b ∨ siMsg s :: a = b)

/-! History-file loading, gemini.py `_load_chat_history` (lines 225-277)
together with `j_loads` from src/jjson.py (which returns None both when the
file cannot be parsed; the existence check happens first, at line 247). -/

/-- State of the history file on disk as `_load_chat_history` observes it. -/
inductive FileState
  | missing
  | corrupt
  | valid (record : List Msg)
deriving DecidableEq, Repr

/-- Result of `_load_chat_history`: the in-memory `chat_history`, the
provider-handle history, and whether `self._chat` was replaced. -/
structure LoadOutcome where
  chatHistory : List Msg
  handleHistory : List Msg
  handleFresh : Bool
deriving DecidableEq, Repr

/-- gemini.py `_load_chat_history`: a missing file resets the history and
starts a fresh chat (lines 269-272); a record that `j_loads` cannot decode
only logs an error and leaves both the history and the handle untouched
(lines 267-268, the `else` branch of `if history_to_load is not None`);
a decoded record is stripped, installed and replayed (lines 249-266). -/
def loadChatHistory (si : Option String) (priorHistory priorHandle : List Msg) :
    FileState → LoadOutcome
  | .missing => ⟨[], startChatHistory si [], true⟩
  | .corrupt => ⟨priorHistory, priorHandle, false⟩
  | .valid h => ⟨loadMaterialize si h, loadMaterialize si h, true⟩

/-! History-file saving, src/jjson.py `j_dumps` and gemini.py
`_save_chat_history` (lines 200-223).  The serialized record is modelled as a
token stream so that a truncated prefix is observably undecodable. -/

/-- One chunk of the streamed JSON serialization of a history record. -/
inductive Chunk
  | arrOpen
  | arrClose
  | msgChunk (m : Msg)
deriving DecidableEq, Repr

/-- The full serialization `json.dump` would produce for a record. -/
def serializeRecord (h : List Msg) : List Chunk :=
  Chunk.arrOpen :: (h.map Chunk.msgChunk ++ [Chunk.arrClose])

/-- Decoder body: a well-formed tail is message chunks closed by arrClose. -/
def decodeBody : List Chunk → Option (List Msg)
  | [Chunk.arrClose] => some []
  | Chunk.msgChunk m :: rest => (decodeBody rest).map (fun t => m :: t)
  | _ => none

/-- Decoder for a serialized record; partial inverse of serializeRecord. -/
def decodeRecord : List Chunk → Option (List Msg)
  | Chunk.arrOpen :: rest => decodeBody rest
  | _ => none

/-- src/jjson.py `j_dumps`: `open(file_path, 'w')` truncates the file at once,
then `json.dump` streams the serialization into it; an exception after `k`
chunks (modelled by `failAfter = some k` with `k` short of the full length)
returns `False` and leaves whatever was already streamed.  The previous file
content never survives an attempted write because of the `'w'` truncation. -/
def j_dumps (data : List Msg) (_prev : Option (List Chunk)) (failAfter : Option Nat) :
    Bool × Option (List Chunk) :=
  let chunks := serializeRecord data
  match failAfter with
  | none => (true, some chunks)
  | some k => if k < chunks.length then (false, some (chunks.take k)) else (true, some chunks)

/-- gemini.py `_save_chat_history`: a failing `mkdir` (lines 213-217) returns
False before the file is opened, leaving the previous content intact;
otherwise the record is handed to `j_dumps`. -/
def saveChatHistory (record : List Msg) (prev : Option (List Chunk)) (mkdirOk : Bool)
    (failAfter : Option Nat) : Bool × Option (List Chunk) :=
  if mkdirOk then j_dumps record prev failAfter else (false, prev)

/-! Exception model for the request executors.  gemini.py imports
ResourceExhausted, InvalidArgument, GatewayTimeout, ServiceUnavailable,
DefaultCredentialsError and RefreshError, but the names `requests`, `RpcError`
and `grpc` that also appear in except clauses are never imported: evaluating
such a clause while an exception is being matched raises NameError, which is
then the exception that propagates. -/

/-- Exceptions that can be raised by the provider call or by the except-clause
machinery itself. -/
inductive PyExc
  | nameError
  | resourceExhausted
  | invalidArgument (tokenLimitMsg : Bool)
  | networkError
  | gatewayTimeout
  | serviceUnavailable
  | credentialsError
  | valueOrTypeError
  | rpcError
  | unexpected
deriving DecidableEq, Repr

/-- Every exception arising here derives Python's Exception class, so the
catch-all `except Exception` clause matches it. -/
def PyExc.isException : PyExc → Bool := fun _ => true

/-- Outcome of one provider call (`send_message_async` in chat,
`generate_content` in ask): a response whose `.text` is the given string, a
response without a text attribute, or a raised exception. -/
inductive Outcome
  | reply (text : String)
  | empty
  | raise (e : PyExc)
deriving DecidableEq, Repr

/-- The context-too-large outcome: InvalidArgument whose message mentions the
maximum number of tokens allowed (gemini.py line 345). -/
def Outcome.isCtl : Outcome → Bool
  | .raise (.invalidArgument true) => true
  | _ => false

/-- State of one GoogleGenerativeAi instance as the chat state machine sees
it, instrumented with call, sleep and restart counters. -/
structure ChatState where
  sysInstr : Option String
  chatHistory : List Msg
  handleHistory : List Msg
  handleGen : Nat
  calls : Nat
  sleepSecs : Nat
  restarts : Nat
deriving DecidableEq, Repr

/-- State after `__init__` (lines 96-149): empty in-memory history, a provider
handle freshly built by `_start_chat` from the system instruction. -/
def initState (si : Option String) : ChatState :=
  ⟨si, [], startChatHistory si [], 0, 0, 0, 0⟩

/-- gemini.py `start_new_chat_session` called with
`new_system_instruction = self.system_instruction` (the form used by the
chat error handlers, lines 339, 348, 359): the in-memory history is cleared
and `self._chat` is replaced by a fresh handle, so the handle identity
(generation) changes. -/
def startNewChatSession (st : ChatState) : ChatState :=
  { st with chatHistory := [],
            handleHistory := startChatHistory st.sysInstr [],
            handleGen := st.handleGen + 1,
            restarts := st.restarts + 1 }

/-- Verdict of the inner try of `chat` for one provider outcome. -/
inductive StepVerdict
  | done (r : Option String) (st : ChatState)
  | retryAfterRestart (st : ChatState)
deriving Repr

/-- The inner try of `chat` (gemini.py lines 330-397) on one provider
outcome, given the state with the call already counted.  A successful
response with truthy text appends the user parts and the model reply to the
history and returns the text; ResourceExhausted sleeps 14400 s, restarts and
returns None; InvalidArgument restarts and retries when the message reports
the token limit, else returns None; any other exception falls through the
first two except clauses to `except RpcError`, whose class expression is the
unbound name RpcError, so NameError is raised out of the inner try. -/
def chatInner (q : String) (context : Option (String ⊕ List String)) (o : Outcome)
    (st : ChatState) : Except PyExc StepVerdict :=
  match o with
  | .reply t =>
    if t = "" then .ok (.done none st)
    else
      .ok (.done (some t)
        { st with
            chatHistory := st.chatHistory ++ [⟨"user", buildContent context q⟩, ⟨"model", [t]⟩],
            handleHistory :=
              st.handleHistory ++ [⟨"user", buildContent context q⟩, ⟨"model", [t]⟩] })
  | .empty => .ok (.done none st)
  | .raise .resourceExhausted =>
      .ok (.done none (startNewChatSession
        { st with sleepSecs := st.sleepSecs + QUOTA_EXHAUSTED_SLEEP_SECONDS }))
  | .raise (.invalidArgument tokenLimitMsg) =>
      if tokenLimitMsg then .ok (.retryAfterRestart (startNewChatSession st))
      else .ok (.done none st)
  | .raise _ => .error .nameError

/-- Result of running `chat` against a finite supply of provider outcomes. -/
inductive ChatResult
  | returned (r : Option String) (st : ChatState)
  | outOfOutcomes (st : ChatState)
  | raised (e : PyExc) (st : ChatState)
deriving DecidableEq, Repr

def ChatResult.isRaised : ChatResult → Bool
  | .raised _ _ => true
  | _ => false

def ChatResult.isReturned : ChatResult → Bool
  | .returned _ _ => true
  | _ => false

def ChatResult.retVal : ChatResult → Option (Option String)
  | .returned r _ => some r
  | _ => none

def ChatResult.state : ChatResult → ChatState
  | .returned _ st => st
  | .outOfOutcomes st => st
  | .raised _ st => st

/-- gemini.py `chat` (lines 298-401) run against a list of provider outcomes,
one consumed per `send_message_async` call.  The outer try (lines 329 and
399-401) catches every Exception and returns None; the token-limit
InvalidArgument branch re-invokes `chat` itself for the same request
(line 349), consuming the next outcome. -/
def chatRun (q : String) (context : Option (String ⊕ List String)) :
    List Outcome → ChatState → ChatResult
  | [], st => .outOfOutcomes st
  | o :: rest, st =>
    let st1 : ChatState := { st with calls := st.calls + 1 }
    match chatInner q context o st1 with
    | .error e => if e.isException then .returned none st1 else .raised e st1
    | .ok (.done r st2) => .returned r st2
    | .ok (.retryAfterRestart st2) => chatRun q context rest st2

/-! The stateless executor `ask` (gemini.py lines 403-513), modelled
literally.  Its first except clause is
`except requests.exceptions.RequestException`, and `requests` is never an
imported name in gemini.py, so matching any raised exception evaluates an unbound
name and NameError propagates out of `ask` (there is no enclosing try);
every later clause, including the ResourceExhausted one that would return the
string "ResourceExhausted" and the attempt-limit checks, is unreachable. -/

/-- Result of an `ask` run: the returned value, a propagated exception, or
exhaustion of the modelled outcome supply, with the number of provider calls
made and the total seconds slept. -/
inductive AskResult
  | returned (r : Option String) (calls sleepSecs : Nat)
  | raised (e : PyExc) (calls sleepSecs : Nat)
  | outOfOutcomes (calls sleepSecs : Nat)
deriving DecidableEq, Repr

/-- The `for attempt in range(attempts)` loop of `ask`: `remaining` counts the
attempts still available, `attempt` is the current index.  A response with
truthy text returns it; a falsy response sleeps 2^attempt seconds and
continues (lines 446-454); any exception raises NameError (see above).
When the loop ends, line 513 returns None. -/
def askGo : Nat → Nat → List Outcome → Nat → Nat → AskResult
  | 0, _, _, calls, sleepSecs => .returned none calls sleepSecs
  | _ + 1, _, [], calls, sleepSecs => .outOfOutcomes calls sleepSecs
  | remaining + 1, attempt, o :: rest, calls, sleepSecs =>
    match o with
    | .reply t =>
      if t = "" then
        askGo remaining (attempt + 1) rest (calls + 1)
          (sleepSecs + INITIAL_RETRY_SLEEP_SECONDS ^ attempt)
      else .returned (some t) (calls + 1) sleepSecs
    | .empty =>
      askGo remaining (attempt + 1) rest (calls + 1)
        (sleepSecs + INITIAL_RETRY_SLEEP_SECONDS ^ attempt)
    | .raise _ => .raised .nameError (calls + 1) sleepSecs

/-- gemini.py `ask` with the given attempt budget (default 15) against a list
of provider outcomes. -/
def askRun (attempts : Nat) (outcomes : List Outcome) : AskResult :=
  askGo attempts 0 outcomes 0 0

/-! Object-identity model for the `chat_history` class attribute.
gemini.py line 88 declares `chat_history: List[Dict] = []` in the class body,
creating one list object at class-definition time; `__init__` (lines 96-149)
never assigns `self.chat_history`, so on a fresh instance the attribute
lookup resolves to that single shared class-level list. -/

/-- Heap of Python list objects; cell 0 is the class-level list. -/
structure Heap where
  cells : List (List Msg)
deriving DecidableEq, Repr

/-- One GoogleGenerativeAi instance: its object identity and the heap cell its
`chat_history` attribute currently resolves to. -/
structure PyInstance where
  objId : Nat
  historyRef : Nat
deriving DecidableEq, Repr

/-- The heap right after the class body has executed: only the class-level
empty list exists. -/
def classHeap : Heap := ⟨[[]]⟩

/-- A freshly constructed instance: `__init__` sets api_key, model, `_chat`
and the rest, but never `self.chat_history`, so the attribute still resolves
to the class-level list in cell 0. -/
def mkInstance (objId : Nat) : PyInstance := ⟨objId, 0⟩

def Heap.read (h : Heap) (r : Nat) : List Msg :=
  h.cells.getD r []

def Heap.write (h : Heap) (r : Nat) (v : List Msg) : Heap :=
  ⟨h.cells.set r v⟩

/-- gemini.py lines 389-390 on a successful send:
`self.chat_history.append(user entry)` then `.append(model entry)` mutate the
list object the instance's `chat_history` resolves to. -/
def chatAppendExchange (h : Heap) (inst : PyInstance) (userParts : List String)
    (reply : String) : Heap :=
  h.write inst.historyRef
    (h.read inst.historyRef ++ [⟨"user", userParts⟩, ⟨"model", [reply]⟩])

/-- gemini.py line 194 (`self.chat_history = []` in start_new_chat_session)
allocates a fresh list object and makes it an instance attribute, shadowing
the class-level list from then on. -/
def startNewSessionAlloc (h : Heap) (inst : PyInstance) : Heap × PyInstance :=
  (⟨h.cells ++ [[]]⟩, ⟨inst.objId, h.cells.length⟩)

/-! Shared helper lemmas. -/

theorem siOccCount_cons (s : String) (m : Msg) (t : List Msg) :
    siOccCount s (m :: t) = (if s ∈ m.parts then 1 else 0) + siOccCount s t := by
  simp only [siOccCount, List.countP_cons, decide_eq_true_eq]
  split <;> omega

theorem siOccCount_siMsg_cons (s : String) (t : List Msg) :
    siOccCount s (siMsg s :: t) = 1 + siOccCount s t := by
  rw [siOccCount_cons]
  simp [siMsg]

/-- If the instruction occurs nowhere in the supplied history, `_start_chat`
materializes it at most once. -/
theorem startChatHistory_occ_le_one (s : String) (h : List Msg)
    (hocc : siOccCount s h = 0) : siOccCount s (startChatHistory (some s) h) ≤ 1 := by
  by_cases hs : s = ""
  · simp only [startChatHistory, if_pos hs]
    omega
  · cases h with
    | nil =>
      simp only [startChatHistory, if_neg hs]
      rw [siOccCount_siMsg_cons]
      simp [siOccCount]
    | cons m t =>
      by_cases hc : m.role = "user" ∧ s ∉ m.parts
      · simp only [startChatHistory, if_neg hs, if_pos hc]
        rw [siOccCount_siMsg_cons, hocc]
      · simp only [startChatHistory, if_neg hs, if_neg hc]
        omega

/-- Stripping the leading instruction entry cannot create an occurrence. -/
theorem stripLeadingSi_occ_zero (s : String) (h : List Msg)
    (hocc : siOccCount s h = 0) : siOccCount s (stripLeadingSi (some s) h) = 0 := by
  cases h with
  | nil => simpa using hocc
  | cons m t =>
    rw [siOccCount_cons] at hocc
    simp only [stripLeadingSi]
    split
    · omega
    · rw [siOccCount_cons]
      exact hocc

/-! Claim C1. -/

/-- C1: evaluation of `ask` at the failing input.  With the default attempt
budget of 15 and the provider raising a transient network error, `ask` does
not surface the failure as None after exactly five provider calls: it makes
one provider call and propagates NameError, because its first except clause
`except requests.exceptions.RequestException` names the module `requests`,
which gemini.py never imports, so matching any raised exception evaluates an
unbound name.  The second conjunct shows that supplying six network failures
changes nothing: the retry loop never runs more than one attempt. -/
theorem C1_ask_network_error_propagates :
    askRun 15 [Outcome.raise PyExc.networkError] = AskResult.raised PyExc.nameError 1 0 ∧
    askRun 15 (List.replicate 6 (Outcome.raise PyExc.networkError)) =
      AskResult.raised PyExc.nameError 1 0 := by
  exact ⟨rfl, rfl⟩

/-! Claim C3. -/

/-- C3 counterexample: the claim fails on both operations.  In `chat` a
quota-exhausted failure is not retried: with a successful reply available as
the next provider outcome, `chat` still returns None having made exactly one
provider call.  In `ask` a quota-exhausted failure is not slept on, not
restarted and not retried: one call is made, zero seconds are slept, and a
NameError propagates (the dead `requests` clause is evaluated first). -/
theorem C3_quota_cex :
    (chatRun "q" none [Outcome.raise PyExc.resourceExhausted, Outcome.reply "ok"]
        (initState (some "S"))).retVal = some none ∧
    (chatRun "q" none [Outcome.raise PyExc.resourceExhausted, Outcome.reply "ok"]
        (initState (some "S"))).state.calls = 1 ∧
    askRun 15 [Outcome.raise PyExc.resourceExhausted] =
      AskResult.raised PyExc.nameError 1 0 := by
  exact ⟨rfl, rfl, rfl⟩

/-- C3 (amended): on ResourceExhausted, `chat` sleeps the 14400-second
cool-down, replaces the provider handle with a fresh one (clearing the
in-memory transcript and bumping the handle generation) and returns None
without retrying the request; the synchronous `ask` makes one call and
propagates NameError with no sleep, no restart and no retry, its except
clauses being unreachable because the first of them names the unimported
module `requests`. -/
theorem C3_quota_restart_no_retry :
    (∀ (q : String) (c : Option (String ⊕ List String)) (st : ChatState)
        (rest : List Outcome),
      chatRun q c (Outcome.raise PyExc.resourceExhausted :: rest) st =
        ChatResult.returned none (startNewChatSession
          { st with calls := st.calls + 1,
                    sleepSecs := st.sleepSecs + QUOTA_EXHAUSTED_SLEEP_SECONDS })) ∧
    (∀ (a : Nat) (rest : List Outcome),
      askRun (a + 1) (Outcome.raise PyExc.resourceExhausted :: rest) =
        AskResult.raised PyExc.nameError 1 0) := by
  refine ⟨fun q c st rest => rfl, fun a rest => rfl⟩

/-! Claim C7. -/

/-- C7 counterexample: loading from a corrupt (undecodable) file is not
treated as empty history.  A session whose in-memory transcript already
holds a message keeps it unchanged, and the provider handle is not replaced
(`handleFresh = false`): `_load_chat_history` only logs an error in this
branch. -/
theorem C7_corrupt_cex :
    (loadChatHistory (some "S") [Msg.mk "user" ["m"]] [siMsg "S"]
        FileState.corrupt).chatHistory = [Msg.mk "user" ["m"]] ∧
    (loadChatHistory (some "S") [Msg.mk "user" ["m"]] [siMsg "S"]
        FileState.corrupt).handleFresh = false ∧
    ([Msg.mk "user" ["m"]] : List Msg).isEmpty = false := by
  exact ⟨rfl, rfl, rfl⟩

/-- C7 (amended): loading from a missing file is not an error and yields
empty in-memory history with a fresh provider handle; loading from a corrupt
file is distinguished (only an error is logged) but leaves the in-memory
history and the provider handle exactly as they were, so the result is empty
history only when the history was already empty.  In neither case does the
load raise: both branches produce a result. -/
theorem C7_load_missing_and_corrupt (si : Option String) (ph hh : List Msg) :
    loadChatHistory si ph hh FileState.missing =
      ⟨[], startChatHistory si [], true⟩ ∧
    loadChatHistory si ph hh FileState.corrupt = ⟨ph, hh, false⟩ := by
  exact ⟨rfl, rfl⟩

/-! Claim C8. -/

/-- C8: multimodal content assembly is deterministic and order-preserving:
with context ["fact A", "fact B"] and prompt "Q?" the parts are exactly the
labelled newline-joined context followed by the prompt, and the same rule
holds for every non-empty context list and every prompt. -/
theorem C8_content_order :
    buildContent (some (Sum.inr ["fact A", "fact B"])) "Q?" =
      ["Контекст:\nfact A\nfact B\n\n", "Q?"] ∧
    ∀ (l : List String) (q : String), l ≠ [] →
      buildContent (some (Sum.inr l)) q =
        ["Контекст:\n" ++ String.intercalate "\n" l ++ "\n\n", q] := by
  constructor
  · rfl
  · intro l q hl
    cases l with
    | nil => exact absurd rfl hl
    | cons a t => simp [buildContent, contextTruthy, contextStr]

/-- C8 witness: the general ordering rule of C8_content_order applied at the
concrete context ["x"] and prompt "p". -/
theorem C8_witness :
    (["x"] : List String) ≠ [] ∧
    buildContent (some (Sum.inr ["x"])) "p" = ["Контекст:\nx\n\n", "p"] :=
  ⟨by decide, C8_content_order.2 ["x"] "p" (by decide)⟩

/-! Claim C9. -/

/-- C9: evaluation at the failing input.  Two freshly constructed instances
(object ids 1 and 2) both resolve `chat_history` to the single class-level
list (heap cell 0): before any send the second instance reads an empty
transcript, but after a successful send through the first instance the
second instance reads the appended user/model pair — the transcript is
shared mutable state, not owned exclusively. -/
theorem C9_shared_class_history :
    (mkInstance 1).objId = 1 ∧ (mkInstance 2).objId = 2 ∧
    Heap.read classHeap (mkInstance 2).historyRef = [] ∧
    Heap.read (chatAppendExchange classHeap (mkInstance 1) ["Hello"] "Hi")
        (mkInstance 2).historyRef =
      [Msg.mk "user" ["Hello"], Msg.mk "model" ["Hi"]] := by
  exact ⟨rfl, rfl, rfl, rfl⟩

/-! Claim C4. -/

/-- C4 counterexample: the duplicate guard of `_start_chat` inspects only the
first message of the history it is given.  Reloading (or restarting with) a
history whose second message is a user message containing the configured
instruction "S" materializes a conversation in which the instruction occurs
twice — both in the list handed to the provider and, for the reload path, in
the aliased in-memory `chat_history`. -/
theorem C4_duplicate_si :
    siOccCount "S" (loadMaterialize (some "S")
        [Msg.mk "user" ["hi"], Msg.mk "user" ["S"]]) = 2 ∧
    siOccCount "S" (startNewChatSessionHandle (some "S")
        (some [Msg.mk "user" ["hi"], Msg.mk "user" ["S"]])) = 2 := by
  exact ⟨by decide, by decide⟩

/-- C4 (amended): provided the history being materialized does not already
contain the configured system instruction, every materialization path —
fresh construction (`h = []`), restart (`_start_chat` on a supplied history)
and reload (`_load_chat_history`) — yields a conversation in which the
instruction occurs at most once.  The guard inspecting only the first
message means a history that already carries the instruction beyond its
first message is duplicated (see the counterexample). -/
theorem C4_si_at_most_once (s : String) (h : List Msg)
    (hocc : siOccCount s h = 0) :
    siOccCount s (startChatHistory (some s) h) ≤ 1 ∧
    siOccCount s (loadMaterialize (some s) h) ≤ 1 := by
  refine ⟨startChatHistory_occ_le_one s h hocc, ?_⟩
  exact startChatHistory_occ_le_one s (stripLeadingSi (some s) h)
    (stripLeadingSi_occ_zero s h hocc)

/-- C4 witness: C4_si_at_most_once applied to the instruction "S" and the
instruction-free history consisting of one model message. -/
theorem C4_witness :
    siOccCount "S" [Msg.mk "model" ["r"]] = 0 ∧
    (siOccCount "S" (startChatHistory (some "S") [Msg.mk "model" ["r"]]) ≤ 1 ∧
     siOccCount "S" (loadMaterialize (some "S") [Msg.mk "model" ["r"]]) ≤ 1) :=
  ⟨by decide, C4_si_at_most_once "S" [Msg.mk "model" ["r"]] (by decide)⟩

/-! Claim C6. -/

/-- C6 counterexample: saving is not atomic.  The disk initially holds a
valid record (it decodes to the one-message transcript); a save of a longer
record that fails after one streamed chunk returns false but leaves the file
holding just the opening chunk, which no longer decodes — the previously
valid record has been destroyed by the `open(file_path, 'w')` truncation. -/
theorem C6_truncated_write_cex :
    decodeRecord (serializeRecord [Msg.mk "user" ["a"]]) = some [Msg.mk "user" ["a"]] ∧
    j_dumps [Msg.mk "user" ["a"], Msg.mk "model" ["b"]]
        (some (serializeRecord [Msg.mk "user" ["a"]])) (some 1) =
      (false, some [Chunk.arrOpen]) ∧
    decodeRecord [Chunk.arrOpen] = none := by
  exact ⟨rfl, by decide, rfl⟩

/-- C6 (amended): `j_dumps` returns true with the fully written serialization
when no failure occurs, and returns false when the write fails mid-stream —
but because the file is opened with mode 'w' (truncate) and written in
place, a failure after k chunks leaves the file holding the k-chunk prefix
of the new serialization, regardless of what valid record was there before:
a failed save can corrupt the previously valid record. -/
theorem C6_jdumps_not_atomic (data : List Msg) (prev : Option (List Chunk))
    (k : Nat) (hk : k < (serializeRecord data).length) :
    j_dumps data prev (some k) = (false, some ((serializeRecord data).take k)) ∧
    j_dumps data prev none = (true, some (serializeRecord data)) := by
  constructor
  · simp [j_dumps, hk]
  · rfl

/-- C6 witness: C6_jdumps_not_atomic at a two-message record with a failure
after one chunk. -/
theorem C6_witness :
    1 < (serializeRecord [Msg.mk "user" ["a"], Msg.mk "model" ["b"]]).length ∧
    (j_dumps [Msg.mk "user" ["a"], Msg.mk "model" ["b"]] none (some 1) =
        (false, some ((serializeRecord [Msg.mk "user" ["a"], Msg.mk "model" ["b"]]).take 1)) ∧
     j_dumps [Msg.mk "user" ["a"], Msg.mk "model" ["b"]] none none =
        (true, some (serializeRecord [Msg.mk "user" ["a"], Msg.mk "model" ["b"]]))) :=
  ⟨by decide, C6_jdumps_not_atomic [Msg.mk "user" ["a"], Msg.mk "model" ["b"]] none 1 (by decide)⟩

/-! Claim C2. -/

/-- C2 counterexample: the restart-then-retry cycle is not bounded by one
extra cycle.  With the provider raising a context-too-large InvalidArgument
on three consecutive calls and then replying "ok", `chat` performs three
session restarts and four provider calls before returning the reply — the
recursion `return await self.chat(q, ...)` runs once per failure, without
any cycle counter. -/
theorem C2_three_restarts_cex :
    (chatRun "q" none
        [Outcome.raise (PyExc.invalidArgument true), Outcome.raise (PyExc.invalidArgument true),
         Outcome.raise (PyExc.invalidArgument true), Outcome.reply "ok"]
        (initState (some "S"))).state.restarts = 3 ∧
    (chatRun "q" none
        [Outcome.raise (PyExc.invalidArgument true), Outcome.raise (PyExc.invalidArgument true),
         Outcome.raise (PyExc.invalidArgument true), Outcome.reply "ok"]
        (initState (some "S"))).state.calls = 4 ∧
    (chatRun "q" none
        [Outcome.raise (PyExc.invalidArgument true), Outcome.raise (PyExc.invalidArgument true),
         Outcome.raise (PyExc.invalidArgument true), Outcome.reply "ok"]
        (initState (some "S"))).retVal = some (some "ok") := by
  exact ⟨rfl, rfl, rfl⟩

/-- C2 (amended): each context-too-large failure triggers one session restart
(transcript dropped, system instruction kept) and one recursive re-attempt of
the same logical request, with no bound on the number of cycles: against n
consecutive context-too-large failures followed by a reply, `chat` performs
exactly n restarts and n+1 provider calls, returns the reply, preserves the
system instruction, and the returned transcript starts from the last restart
(the pre-existing transcript survives only when no restart happened). -/
theorem C2_ctl_cycle_count (n : Nat) (t q : String) (st : ChatState) (ht : t ≠ "") :
    (chatRun q none
        (List.replicate n (Outcome.raise (PyExc.invalidArgument true)) ++ [Outcome.reply t])
        st).retVal = some (some t) ∧
    (chatRun q none
        (List.replicate n (Outcome.raise (PyExc.invalidArgument true)) ++ [Outcome.reply t])
        st).state.restarts = st.restarts + n ∧
    (chatRun q none
        (List.replicate n (Outcome.raise (PyExc.invalidArgument true)) ++ [Outcome.reply t])
        st).state.calls = st.calls + n + 1 ∧
    (chatRun q none
        (List.replicate n (Outcome.raise (PyExc.invalidArgument true)) ++ [Outcome.reply t])
        st).state.sysInstr = st.sysInstr ∧
    (chatRun q none
        (List.replicate n (Outcome.raise (PyExc.invalidArgument true)) ++ [Outcome.reply t])
        st).state.chatHistory =
      (if n = 0 then st.chatHistory else []) ++ [Msg.mk "user" [q], Msg.mk "model" [t]] := by
  induction n generalizing st with
  | zero =>
    simp only [List.replicate, List.nil_append]
    simp [chatRun, chatInner, ht, buildContent, ChatResult.retVal, ChatResult.state]
  | succ n ih =>
    rw [List.replicate_succ, List.cons_append]
    have hstep : chatRun q none (Outcome.raise (PyExc.invalidArgument true) ::
        (List.replicate n (Outcome.raise (PyExc.invalidArgument true)) ++ [Outcome.reply t]))
        st =
        chatRun q none
          (List.replicate n (Outcome.raise (PyExc.invalidArgument true)) ++ [Outcome.reply t])
          (startNewChatSession { st with calls := st.calls + 1 }) := rfl
    rw [hstep]
    obtain ⟨h1, h2, h3, h4, h5⟩ := ih (startNewChatSession { st with calls := st.calls + 1 })
    refine ⟨h1, ?_, ?_, ?_, ?_⟩
    · rw [h2]
      simp [startNewChatSession]
      omega
    · rw [h3]
      simp [startNewChatSession]
      omega
    · rw [h4]
      simp [startNewChatSession]
    · rw [h5]
      cases n <;> simp [startNewChatSession]

/-- C2 witness: C2_ctl_cycle_count at two consecutive context-too-large
failures followed by the reply "ok", from a freshly initialized session. -/
theorem C2_witness :
    ("ok" : String) ≠ "" ∧
    ((chatRun "q" none
        (List.replicate 2 (Outcome.raise (PyExc.invalidArgument true)) ++ [Outcome.reply "ok"])
        (initState (some "S"))).retVal = some (some "ok") ∧
     (chatRun "q" none
        (List.replicate 2 (Outcome.raise (PyExc.invalidArgument true)) ++ [Outcome.reply "ok"])
        (initState (some "S"))).state.restarts = (initState (some "S")).restarts + 2 ∧
     (chatRun "q" none
        (List.replicate 2 (Outcome.raise (PyExc.invalidArgument true)) ++ [Outcome.reply "ok"])
        (initState (some "S"))).state.calls = (initState (some "S")).calls + 2 + 1 ∧
     (chatRun "q" none
        (List.replicate 2 (Outcome.raise (PyExc.invalidArgument true)) ++ [Outcome.reply "ok"])
        (initState (some "S"))).state.sysInstr = (initState (some "S")).sysInstr ∧
     (chatRun "q" none
        (List.replicate 2 (Outcome.raise (PyExc.invalidArgument true)) ++ [Outcome.reply "ok"])
        (initState (some "S"))).state.chatHistory =
      (if 2 = 0 then (initState (some "S")).chatHistory else []) ++
        [Msg.mk "user" ["q"], Msg.mk "model" ["ok"]]) :=
  ⟨by decide, C2_ctl_cycle_count 2 "ok" "q" (initState (some "S")) (by decide)⟩

/-! Claim C5. -/

/-- C5 counterexample: the save/load round trip can lose a user turn that is
not the de-duplicated instruction entry.  A reachable session (instruction
"S", one successful send of prompt "S" with RAG context "C") saves the
two-message record shown; reloading it strips the whole first user message —
because the instruction merely occurs among its parts — and does not
re-insert anything (the next message has role model), so the loaded
transcript differs from the saved one by more than the single leading
instruction entry. -/
theorem C5_roundtrip_cex :
    (chatRun "S" (some (Sum.inl "C")) [Outcome.reply "r"]
        (initState (some "S"))).state.chatHistory =
      [Msg.mk "user" ["Контекст:\nC\n\n", "S"], Msg.mk "model" ["r"]] ∧
    loadMaterialize (some "S")
        [Msg.mk "user" ["Контекст:\nC\n\n", "S"], Msg.mk "model" ["r"]] =
      [Msg.mk "model" ["r"]] ∧
    modSiB "S"
      (loadMaterialize (some "S")
        [Msg.mk "user" ["Контекст:\nC\n\n", "S"], Msg.mk "model" ["r"]])
      [Msg.mk "user" ["Контекст:\nC\n\n", "S"], Msg.mk "model" ["r"]] = false := by
  exact ⟨rfl, by decide, by decide⟩

/-- C5 (amended): the round trip holds — the loaded in-memory transcript
equals the saved record up to the single canonical leading instruction
entry — provided that whenever the record's first message is a user message
containing the instruction, it is exactly the canonical instruction message
(the only shape `_load_chat_history` itself ever persists in that position). -/
theorem C5_roundtrip_modulo_si (s : String) (h : List Msg)
    (hd : ∀ m, h.head? = some m → m.role = "user" → s ∈ m.parts → m = siMsg s) :
    modSiB s (loadMaterialize (some s) h) h = true := by
  simp only [modSiB, decide_eq_true_eq]
  by_cases hs : s = ""
  · subst hs
    left
    cases h <;> simp [loadMaterialize, stripLeadingSi, startChatHistory]
  · cases h with
    | nil =>
      right
      left
      simp [loadMaterialize, stripLeadingSi, startChatHistory, hs]
    | cons m t =>
      by_cases hu : m.role = "user"
      · by_cases hsp : s ∈ m.parts
        · have hm : m = siMsg s := hd m rfl hu hsp
          subst hm
          cases t with
          | nil =>
            left
            simp [loadMaterialize, stripLeadingSi, startChatHistory, hs, siMsg]
          | cons m2 t2 =>
            by_cases hc : m2.role = "user" ∧ s ∉ m2.parts
            · left
              simp [loadMaterialize, stripLeadingSi, startChatHistory, hs, siMsg, hc]
            · right
              right
              simp [loadMaterialize, stripLeadingSi, startChatHistory, hs, siMsg, hc]
        · right
          left
          simp [loadMaterialize, stripLeadingSi, startChatHistory, hs, hu, hsp]
      · left
        simp [loadMaterialize, stripLeadingSi, startChatHistory, hs, hu]

/-- C5 witness: C5_roundtrip_modulo_si at a record whose first entry is the
canonical instruction message, where the round trip reproduces the record
exactly up to that entry. -/
theorem C5_witness :
    modSiB "S" (loadMaterialize (some "S") [siMsg "S", Msg.mk "model" ["r"]])
      [siMsg "S", Msg.mk "model" ["r"]] = true :=
  C5_roundtrip_modulo_si "S" [siMsg "S", Msg.mk "model" ["r"]]
    (by
      intro m hm hr hs
      injection hm with h1
      exact h1.symm)

/-! Claim C10. -/

/-- C10: the chat operation never propagates an exception to its caller: for
every input message, context, state and finite supply of provider outcomes,
the run never ends in a raised exception — the outer catch-all turns even
the NameError produced by the dead `except RpcError` clause into a None
return — and for every single provider outcome other than the
context-too-large one (which re-invokes chat), the call returns immediately
with either the reply text or None. -/
theorem C10_chat_total (q : String) (c : Option (String ⊕ List String))
    (outcomes : List Outcome) (st : ChatState) :
    (chatRun q c outcomes st).isRaised = false ∧
    ∀ (o : Outcome) (rest : List Outcome), o.isCtl = false →
      (chatRun q c (o :: rest) st).isReturned = true := by
  constructor
  · induction outcomes generalizing st with
    | nil => rfl
    | cons o rest ih =>
      cases o with
      | reply t =>
        by_cases ht : t = "" <;> simp [chatRun, chatInner, ht, ChatResult.isRaised]
      | empty => rfl
      | raise e =>
        cases e with
        | nameError => rfl
        | resourceExhausted => rfl
        | invalidArgument b =>
          cases b with
          | false => rfl
          | true => exact ih _
        | networkError => rfl
        | gatewayTimeout => rfl
        | serviceUnavailable => rfl
        | credentialsError => rfl
        | valueOrTypeError => rfl
        | rpcError => rfl
        | unexpected => rfl
  · intro o rest ho
    cases o with
    | reply t =>
      by_cases ht : t = "" <;> simp [chatRun, chatInner, ht, ChatResult.isReturned]
    | empty => rfl
    | raise e =>
      cases e with
      | nameError => rfl
      | resourceExhausted => rfl
      | invalidArgument b =>
        cases b with
        | false => rfl
        | true => simp [Outcome.isCtl] at ho
      | networkError => rfl
      | gatewayTimeout => rfl
      | serviceUnavailable => rfl
      | credentialsError => rfl
      | valueOrTypeError => rfl
      | rpcError => rfl
      | unexpected => rfl

/-- C10 witness: C10_chat_total at a single RPC-failure outcome from a fresh
session: the run is not a raised exception and is an immediate return. -/
theorem C10_witness :
    (Outcome.raise PyExc.rpcError).isCtl = false ∧
    (chatRun "q" none [Outcome.raise PyExc.rpcError] (initState none)).isRaised = false ∧
    (chatRun "q" none [Outcome.raise PyExc.rpcError] (initState none)).isReturned = true :=
  ⟨by decide,
   (C10_chat_total "q" none [Outcome.raise PyExc.rpcError] (initState none)).1,
   (C10_chat_total "q" none [Outcome.raise PyExc.rpcError] (initState none)).2
     (Outcome.raise PyExc.rpcError) [] (by decide)⟩

end FCGemini
